import Mathlib

/-!
Verification development for the electric-bill-ocr repository
(`src/app.py`, `src/ocr_logic.py`).

The embedding models Python JSON values, the two prompt builders, the
Stage-1 per-page loop, the Stage-2 aggregator, the OpenAI client wrapper
`run_gpt_analysis`, the Google Vision adapter `extract_text_from_pages`,
and the filesystem-backed session store of `app.py`
(`start_session`, `is_session_valid`, `upload_and_process_file`,
`aggregate_results`).

External collaborators (the Vision OCR backend, the OpenAI completion
backend, `json.loads`) are modelled as explicit function parameters
("oracles"); where an operation must not contact them before failing,
the embedding additionally returns the list of backend calls it issued.
-/

namespace BillOCR

/-- Python JSON values (the values `json.loads` / `json.dump` work with).
Objects keep their keys in insertion order, as Python dicts do; numbers are
modelled as integers (no claim depends on float behaviour). -/
inductive Json where
  | null : Json
  | bool (b : Bool) : Json
  | num (n : Int) : Json
  | str (s : String) : Json
  | arr (xs : List Json) : Json
  | obj (fields : List (String × Json)) : Json

mutual

def Json.decEq : (a b : Json) → Decidable (a = b)
  | .null, .null => isTrue rfl
  | .bool a, .bool b =>
    match inferInstanceAs (Decidable (a = b)) with
    | isTrue h => isTrue (by rw [h])
    | isFalse h => isFalse (fun hh => h (by injection hh))
  | .num a, .num b =>
    match inferInstanceAs (Decidable (a = b)) with
    | isTrue h => isTrue (by rw [h])
    | isFalse h => isFalse (fun hh => h (by injection hh))
  | .str a, .str b =>
    match inferInstanceAs (Decidable (a = b)) with
    | isTrue h => isTrue (by rw [h])
    | isFalse h => isFalse (fun hh => h (by injection hh))
  | .arr a, .arr b =>
    match Json.decEqList a b with
    | isTrue h => isTrue (by rw [h])
    | isFalse h => isFalse (fun hh => h (by injection hh))
  | .obj a, .obj b =>
    match Json.decEqFields a b with
    | isTrue h => isTrue (by rw [h])
    | isFalse h => isFalse (fun hh => h (by injection hh))
  | .null, .bool _ | .null, .num _ | .null, .str _ | .null, .arr _ | .null, .obj _
  | .bool _, .null | .bool _, .num _ | .bool _, .str _ | .bool _, .arr _ | .bool _, .obj _
  | .num _, .null | .num _, .bool _ | .num _, .str _ | .num _, .arr _ | .num _, .obj _
  | .str _, .null | .str _, .bool _ | .str _, .num _ | .str _, .arr _ | .str _, .obj _
  | .arr _, .null | .arr _, .bool _ | .arr _, .num _ | .arr _, .str _ | .arr _, .obj _
  | .obj _, .null | .obj _, .bool _ | .obj _, .num _ | .obj _, .str _ | .obj _, .arr _ =>
    isFalse (fun h => Json.noConfusion h)

def Json.decEqList : (a b : List Json) → Decidable (a = b)
  | [], [] => isTrue rfl
  | [], _ :: _ => isFalse (fun h => List.noConfusion h)
  | _ :: _, [] => isFalse (fun h => List.noConfusion h)
  | x :: xs, y :: ys =>
    match Json.decEq x y, Json.decEqList xs ys with
    | isTrue h1, isTrue h2 => isTrue (by rw [h1, h2])
    | isFalse h1, _ => isFalse (fun hh => h1 (by injection hh))
    | _, isFalse h2 => isFalse (fun hh => h2 (by injection hh))

def Json.decEqFields : (a b : List (String × Json)) → Decidable (a = b)
  | [], [] => isTrue rfl
  | [], _ :: _ => isFalse (fun h => List.noConfusion h)
  | _ :: _, [] => isFalse (fun h => List.noConfusion h)
  | (k1, v1) :: t1, (k2, v2) :: t2 =>
    match inferInstanceAs (Decidable (k1 = k2)), Json.decEq v1 v2, Json.decEqFields t1 t2 with
    | isTrue hk, isTrue hv, isTrue ht => isTrue (by rw [hk, hv, ht])
    | isFalse hk, _, _ =>
      isFalse (fun hh => by
        injection hh with h1 _
        exact hk (congrArg Prod.fst h1))
    | _, isFalse hv, _ =>
      isFalse (fun hh => by
        injection hh with h1 _
        exact hv (congrArg Prod.snd h1))
    | _, _, isFalse ht => isFalse (fun hh => ht (by injection hh))

end

instance : DecidableEq Json := Json.decEq

instance {ε α : Type} [DecidableEq ε] [DecidableEq α] : DecidableEq (Except ε α) :=
  fun a b =>
    match a, b with
    | .error e1, .error e2 =>
      match decEq e1 e2 with
      | isTrue h => isTrue (by rw [h])
      | isFalse h => isFalse (fun hh => h (by injection hh))
    | .ok v1, .ok v2 =>
      match decEq v1 v2 with
      | isTrue h => isTrue (by rw [h])
      | isFalse h => isFalse (fun hh => h (by injection hh))
    | .error _, .ok _ => isFalse (fun h => Except.noConfusion h)
    | .ok _, .error _ => isFalse (fun h => Except.noConfusion h)

/-- Python truthiness of a JSON value (`if x:`): `None`, `False`, `0`,
`""`, `[]` and the empty dict are falsy, everything else truthy. -/
def Json.truthy : Json → Bool
  | .null => false
  | .bool b => b
  | .num n => n != 0
  | .str s => !s.isEmpty
  | .arr xs => !xs.isEmpty
  | .obj fs => !fs.isEmpty

/-- Truthiness of `dict.get(k)`-style results: Python's `None` for a missing
key is falsy. -/
def truthyOpt : Option Json → Bool
  | none => false
  | some j => j.truthy

/-- `d[k] = v` on a Python dict: an existing key keeps its position and gets
the new value; a new key is appended (insertion order). -/
def dictSet (fs : List (String × Json)) (k : String) (v : Json) :
    List (String × Json) :=
  if (fs.lookup k).isSome then
    fs.map (fun e => if e.1 = k then (k, v) else e)
  else
    fs ++ [(k, v)]

/-- `d.get(k)` with default `None`, on values known to be dicts. -/
def pyGet (j : Json) (k : String) : Json :=
  match j with
  | .obj fs => (fs.lookup k).getD .null
  | _ => .null

mutual

/-- `json.dumps` on the modelled JSON values (string escaping abstracted;
no claim inspects the serialized text). -/
def Json.dump : Json → String
  | .null => "null"
  | .bool b => cond b "true" "false"
  | .num n => toString n
  | .str s => "\x22" ++ s ++ "\x22"
  | .arr xs => "[" ++ Json.dumpList xs ++ "]"
  | .obj fs => "\x7b" ++ Json.dumpFields fs ++ "\x7d"

def Json.dumpList : List Json → String
  | [] => ""
  | [j] => Json.dump j
  | j :: js => Json.dump j ++ ", " ++ Json.dumpList js

def Json.dumpFields : List (String × Json) → String
  | [] => ""
  | [(k, j)] => "\x22" ++ k ++ "\x22: " ++ Json.dump j
  | (k, j) :: fs => "\x22" ++ k ++ "\x22: " ++ Json.dump j ++ ", " ++ Json.dumpFields fs

end

mutual

/-- All JSON values occurring inside a JSON value (the value itself, array
elements, object field values, recursively).  Used to state that a value
"appears in" a report. -/
def Json.subterms : Json → List Json
  | .arr xs => .arr xs :: Json.subtermsList xs
  | .obj fs => .obj fs :: Json.subtermsFields fs
  | j => [j]

def Json.subtermsList : List Json → List Json
  | [] => []
  | j :: js => Json.subterms j ++ Json.subtermsList js

def Json.subtermsFields : List (String × Json) → List Json
  | [] => []
  | (_, j) :: fs => Json.subterms j ++ Json.subtermsFields fs

end

/-! ## String helpers mirroring Python's `os.path` and `in` operators -/

/-- Index of the last occurrence of `c` in `cs` (Python `str.rfind`,
restricted to single characters), `none` if absent. -/
def lastIdxOf (cs : List Char) (c : Char) : Option Nat :=
  ((List.range cs.length).filter (fun i => cs.get? i = some c)).getLast?

/-- `os.path.splitext` (posix): split at the last dot of the last path
component, unless every character of the component before that dot is
itself a dot. -/
def splitext (p : String) : String × String :=
  let cs := p.toList
  let sepIndex : Int := match lastIdxOf cs '/' with | none => -1 | some s => (s : Int)
  let dotIndex : Int := match lastIdxOf cs '.' with | none => -1 | some d => (d : Int)
  if sepIndex < dotIndex then
    let d := dotIndex.toNat
    let start := (sepIndex + 1).toNat
    if ((cs.drop start).take (d - start)).any (fun ch => ch ≠ '.') then
      (String.mk (cs.take d), String.mk (cs.drop d))
    else (p, "")
  else (p, "")

/-- `os.path.basename` (posix): everything after the last '/'. -/
def basename (p : String) : String :=
  match lastIdxOf p.toList '/' with
  | none => p
  | some s => String.mk (p.toList.drop (s + 1))

/-- Python's substring test `pat in s`. -/
def hasSubstr (s pat : String) : Bool :=
  (List.range (s.toList.length + 1)).any (fun i => pat.toList.isPrefixOf (s.toList.drop i))

/-- Python's `str.lower()` (ASCII range, which covers file extensions). -/
def strLower (s : String) : String := String.mk (s.toList.map Char.toLower)

/-- Python's `s.endswith(suffix)`. -/
def strEndsWith (s suffix : String) : Bool :=
  suffix.toList.isSuffixOf s.toList

/-! ## Prompt Builder (`ocr_logic.get_stage1_prompt`, `ocr_logic.get_stage2_prompt`)

The long constant instruction text of both templates is abbreviated here;
no claim inspects the instruction wording, only which data is interpolated
and what `get_stage2_prompt` does to its arguments. -/

/-- `ocr_logic.get_stage1_prompt(raw_text, doc_name, page_num)`: a fixed
instruction template with the page number, document name and raw page text
interpolated, in that order. -/
def get_stage1_prompt (raw_text doc_name : String) (page_num : Nat) : String :=
  "You are a world-class data extraction expert for a data science team. " ++
  "Your only goal is to extract historical consumption data from utility bills. " ++
  "Analyze the text from page " ++ toString page_num ++ " of document \x22" ++
  doc_name ++ "\x22: --- " ++ raw_text ++ " --- " ++
  "Follow this comprehensive rule-based process and create a JSON object " ++
  "containing the customer_name, the customer_identifier and a consumption_records list."

/-- The `consumption_records` list of a Stage-1 page object:
`page_data.get("consumption_records", [])`.  (A present non-list value
would make the Python `for record in ...` loop misbehave; such values are
outside the Stage-1 schema and are totalized to `[]` here.) -/
def getRecords (page : Json) : List Json :=
  match page with
  | .obj fs =>
    match fs.lookup "consumption_records" with
    | some (.arr xs) => xs
    | _ => []
  | _ => []

/-- The in-place stamping `record['customer_name'] = ...;
record['customer_identifier'] = ...` performed by `get_stage2_prompt` on
each consumption record.  (A non-dict record would raise `TypeError` in
Python; such records are outside the Stage-1 schema and are returned
unchanged here.) -/
def stampRecord (cn ci : Json) : Json → Json
  | .obj fs => .obj (dictSet (dictSet fs "customer_name" cn) "customer_identifier" ci)
  | j => j

/-- The observable effect of `get_stage2_prompt`'s record loop on one page
object: every record of its `consumption_records` list is stamped in place
with the page's `customer_name` / `customer_identifier`; a page without a
record list is untouched. -/
def stampPage (page : Json) : Json :=
  match page with
  | .obj fs =>
    match fs.lookup "consumption_records" with
    | some (.arr xs) =>
      let cn := (fs.lookup "customer_name").getD .null
      let ci := (fs.lookup "customer_identifier").getD .null
      .obj (dictSet fs "consumption_records" (.arr (xs.map (stampRecord cn ci))))
    | _ => page
  | _ => page

/-- The flat `all_consumption_records` list built inside
`get_stage2_prompt`: each page's records, stamped with the page's
customer fields, concatenated in page order. -/
def flattenRecords (pages : List Json) : List Json :=
  (pages.map (fun p =>
    (getRecords p).map
      (stampRecord (pyGet p "customer_name") (pyGet p "customer_identifier")))).flatten

/-- `ocr_logic.get_stage2_prompt(list_of_page_outputs, entity_filter)`.
Because the record loop mutates the page objects it was given, the
embedding returns both the rendered prompt and the post-call state of the
argument list. -/
def get_stage2_prompt (pages : List Json) (entity_filter : Option String) :
    String × List Json :=
  let filter_instruction :=
    if (match entity_filter with | some f => !f.isEmpty | none => false) then
      "The user has provided a filter: \x22" ++ entity_filter.getD "" ++
      "\x22. Your final output must ONLY contain data for that entity."
    else
      "The user has not provided a filter. Report on ALL unique entities found in the data."
  let all_consumption_records := flattenRecords pages
  ("You are a data scientist's assistant. " ++
   "Your task is to group these records into a final, clearly-labeled, nested JSON structure. " ++
   "Apply Filter: " ++ filter_instruction ++
   " Here is the list of all consumption records: --- " ++
   Json.dump (.arr all_consumption_records) ++
   " --- Present the final, consolidated report as a nested JSON object.",
   pages.map stampPage)

/-! ## Structured Extraction Client (`ocr_logic.run_gpt_analysis`) -/

/-- One OpenAI chat-completion request as configured by
`run_gpt_analysis`. -/
structure CompletionRequest where
  model : String
  prompt : String
  temperature : Nat
  response_format_json : Bool
deriving DecidableEq

/-- `ocr_logic.run_gpt_analysis(prompt, openai_api_key)`.

`complete` is the external OpenAI backend (an `Except` error models any
exception raised by the call: network, auth, quota, missing content);
`parseJson` models `json.loads` (`none` = `JSONDecodeError`).  Besides the
Python function's return value the embedding returns the list of
completion requests issued, so "exactly one request, never retried" is
observable. -/
def run_gpt_analysis (complete : CompletionRequest → Except String String)
    (parseJson : String → Option Json) (prompt : String) :
    Option Json × List CompletionRequest :=
  let req : CompletionRequest :=
    { model := "gpt-4o", prompt := prompt, temperature := 0, response_format_json := true }
  match complete req with
  | .error _ => (none, [req])
  | .ok content =>
    match parseJson content.trim with
    | none => (none, [req])
    | some j => (some j, [req])

/-! ## Text Extraction Adapter (`ocr_logic.extract_text_from_pages`) -/

/-- Exceptions the adapter can raise. -/
inductive PyErr where
  | valueError (msg : String)
  | nameError (name : String)
  | attributeError (attr : String)
  | exception (msg : String)
deriving DecidableEq

/-- One `(page_num, text)` pair produced by the adapter. -/
structure Page where
  page_num : Nat
  text : String
deriving DecidableEq

/-- One per-page response from the Vision backend: an error message
(empty = no error) and the recognized text. -/
structure VisionPageResponse where
  error_message : String
  text : String
deriving DecidableEq

/-- Network calls the adapter can issue. -/
inductive VisionCall where
  | batchAnnotateFiles
  | documentTextDetection
deriving DecidableEq

/-- The external Vision OCR backend: `batch_annotate_files` for PDFs (a
list of file responses, each a list of per-page responses) and
`document_text_detection` for still images. -/
structure VisionBackend where
  annotate_pdf : String → List (List VisionPageResponse)
  detect : String → VisionPageResponse

/-- `ocr_logic.extract_text_from_pages(file_path, google_credentials)`.
`content` is the file's bytes (read before any network call).  Returns the
Python result (pages or raised exception) together with the list of
network calls issued. -/
def extract_text_from_pages (backend : VisionBackend) (file_path content : String) :
    Except PyErr (List Page) × List VisionCall :=
  let file_extension := (splitext file_path).2
  if strLower file_extension = ".pdf" then
    let batch := backend.annotate_pdf content
    let pages := (batch.map (fun file_response =>
      file_response.enum.filterMap (fun ji =>
        if ji.2.error_message ≠ "" then
          none          -- warning printed, page skipped
        else
          some { page_num := ji.1 + 1, text := ji.2.text }))).flatten
    (.ok pages, [.batchAnnotateFiles])
  else if strLower file_extension = ".jpg" ∨ strLower file_extension = ".jpeg" ∨
      strLower file_extension = ".png" then
    let response := backend.detect content
    if response.error_message ≠ "" then
      (.error (.exception ("Error from Vision API: " ++ response.error_message)),
       [.documentTextDetection])
    else
      -- The source appends `{"page_num": 1, "text": image_response.full_text_annotation.text}`,
      -- but `image_response` is bound only by the PDF branch's inner loop and is
      -- undefined on this path: Python raises NameError before appending anything.
      (.error (.nameError "image_response"), [.documentTextDetection])
  else
    (.error (.valueError ("Unsupported file type: " ++ file_extension ++ ".")), [])

/-! ## Stage-1 Processor (`ocr_logic.run_stage1_for_file`) -/

/-- The per-page loop of `run_stage1_for_file`.  `gpt` is the observable
behaviour of `run_gpt_analysis` (the parsed JSON object or `None`) on a
prompt.  A page summary is kept iff it is truthy and its
`consumption_records` entry is truthy; a truthy non-dict summary would
raise `AttributeError` at `page_summary.get`. -/
def stage1Loop (gpt : String → Option Json) (doc_name : String) :
    List Page → Except PyErr (List Json)
  | [] => .ok []
  | page :: rest =>
    let page_summary := gpt (get_stage1_prompt page.text doc_name page.page_num)
    match page_summary with
    | none => stage1Loop gpt doc_name rest
    | some j =>
      if j.truthy then
        match j with
        | .obj fs =>
          if truthyOpt (fs.lookup "consumption_records") then
            (stage1Loop gpt doc_name rest).map (fun out => j :: out)
          else stage1Loop gpt doc_name rest
        | _ => .error (.attributeError "get")
      else stage1Loop gpt doc_name rest

/-- `ocr_logic.run_stage1_for_file(filepath, google_credentials, openai_api_key)`:
extract pages, then run the per-page Stage-1 loop with
`doc_name = os.path.basename(filepath)`. -/
def run_stage1_for_file (backend : VisionBackend) (gpt : String → Option Json)
    (filepath content : String) : Except PyErr (List Json) :=
  match (extract_text_from_pages backend filepath content).1 with
  | .error e => .error e
  | .ok pages => stage1Loop gpt (basename filepath) pages

/-! ## Stage-2 Aggregator (`ocr_logic.run_stage2_aggregation`) -/

/-- The two exceptions `run_stage2_aggregation` raises. -/
inductive Stage2Err where
  | noData            -- "No data was extracted to aggregate."
  | aggregationFailed -- "Stage 2 Aggregation failed to synthesize the final report."
deriving DecidableEq

/-- `ocr_logic.run_stage2_aggregation(all_page_outputs, openai_api_key, entity_filter)`.
Raises `noData` on an empty collection; renders the Stage-2 prompt;
invokes the client once; raises `aggregationFailed` when the returned
report is falsy (`if not final_report:` — `None` or an empty JSON
object). -/
def run_stage2_aggregation (gpt : String → Option Json) (all_page_outputs : List Json)
    (entity_filter : Option String) : Except Stage2Err Json :=
  if all_page_outputs.isEmpty then .error .noData
  else
    let final_prompt := (get_stage2_prompt all_page_outputs entity_filter).1
    match gpt final_prompt with
    | none => .error .aggregationFailed
    | some final_report =>
      if final_report.truthy then .ok final_report
      else .error .aggregationFailed

/-! ## Session Store (`app.py`)

`app.py` backs a session by a directory `processing/<session_id>/` holding
one JSON file per processed upload.  The model represents the processing
folder as an association list from session id to directory, and a
directory as an association list from file name to the page-output list
stored in that file.  Directory listing order (`os.listdir`) is modelled
as creation order; overwriting an existing file keeps its position. -/

/-- A session directory: file name (always `<stem>.json` for files this app
writes) to the Stage-1 page outputs serialized into that file. -/
abbrev Dir := List (String × List Json)

/-- The `processing/` folder: session id to session directory. -/
abbrev Store := List (String × Dir)

/-- `app.is_session_valid(session_id)`: reject falsy ids and ids containing
`'..'` or `'/'` before consulting storage; otherwise test whether the
session directory exists.  (A missing form field gives Python `None`,
which fails the same falsiness test as `""`.) -/
def is_session_valid (st : Store) (session_id : String) : Bool :=
  if session_id.isEmpty || hasSubstr session_id ".." || session_id.toList.contains '/' then
    false
  else
    (st.lookup session_id).isSome

/-- Writing a file into a directory: an existing name keeps its directory
position and gets the new contents, a new name is appended. -/
def setFile (d : Dir) (name : String) (contents : List Json) : Dir :=
  if (d.lookup name).isSome then
    d.map (fun e => if e.1 = name then (name, contents) else e)
  else
    d ++ [(name, contents)]

/-- Apply `f` to the directory of session `sid`. -/
def updateSession (st : Store) (sid : String) (f : Dir → Dir) : Store :=
  st.map (fun e => if e.1 = sid then (sid, f e.2) else e)

/-- `shutil.rmtree(session_path)`: drop the whole session directory. -/
def removeSession (st : Store) (sid : String) : Store :=
  st.filter (fun e => e.1 ≠ sid)

/-- Outcome of the `/upload_and_process_file` handler. -/
inductive UploadResult where
  | invalidSession        -- 400 "Invalid or expired session ID"
  | ok (file : String)    -- 200 success
  | failure (msg : String) -- 500 "Failed to process ..."
deriving DecidableEq

/-- The name of the per-upload result file:
`f"{os.path.splitext(filename)[0]}.json"`. -/
def resultName (filename : String) : String :=
  (splitext filename).1 ++ ".json"

/-- `app.upload_and_process_file` for one uploaded file.  `filename` is the
(already `secure_filename`-sanitized) upload name; `stage1_outcome` is the
outcome of `ocr_logic.run_stage1_for_file` on the saved upload (`.error`
models any exception: missing credentials, unsupported type, OCR failure).
A non-empty page-output list is dumped to `<stem>.json` inside the session
directory — overwriting any earlier result file of the same name. -/
def upload_and_process_file (st : Store) (session_id filename : String)
    (stage1_outcome : Except String (List Json)) : Store × UploadResult :=
  if !is_session_valid st session_id then
    (st, .invalidSession)
  else
    match stage1_outcome with
    | .error e => (st, .failure e)
    | .ok page_outputs =>
      if page_outputs.isEmpty then
        (st, .ok filename)
      else
        (updateSession st session_id
          (fun d => setFile d (resultName filename) page_outputs),
         .ok filename)

/-- Outcome of the `/aggregate_results` handler. -/
inductive AggregateResult where
  | invalidSession    -- 400 "Invalid or expired session ID"
  | noData            -- 400 "No data was extracted from the provided documents."
  | failed            -- 500 "Failed to aggregate results: ..."
  | report (r : Json) -- 200 with the final report
deriving DecidableEq

/-- The collection `all_page_outputs` read by `aggregate_results`: contents
of every `.json` file of the directory, concatenated in listing order. -/
def readAllDir (d : Dir) : List Json :=
  ((d.filter (fun e => strEndsWith e.1 ".json")).map (fun e => e.2)).flatten

/-- `readAllDir` applied to the directory of session `sid`. -/
def readAllStore (st : Store) (sid : String) : List Json :=
  readAllDir ((st.lookup sid).getD [])

/-- `app.aggregate_results`.  After the validity check, the `finally`
block removes the session directory on every path (success, empty
collection, aggregation failure). -/
def aggregate_results (st : Store) (session_id : String)
    (gpt : String → Option Json) (entity_filter : Option String) :
    Store × AggregateResult :=
  if !is_session_valid st session_id then
    (st, .invalidSession)
  else
    let all_page_outputs := readAllStore st session_id
    let cleaned := removeSession st session_id
    if all_page_outputs.isEmpty then
      (cleaned, .noData)
    else
      match run_stage2_aggregation gpt all_page_outputs entity_filter with
      | .ok r => (cleaned, .report r)
      | .error _ => (cleaned, .failed)

/-- The Stage-1 acceptance test
(`if page_summary and page_summary.get("consumption_records"):`) as a
predicate on one client result. -/
def stage1Keeps (o : Option Json) : Bool :=
  match o with
  | some (.obj fs) => (Json.obj fs).truthy && truthyOpt (fs.lookup "consumption_records")
  | _ => false

/-- Keep a client result iff the Stage-1 acceptance test passes. -/
def acceptedSummary (o : Option Json) : Option Json :=
  if stage1Keeps o then o else none

/-- Shape of a Structured Extraction Client result as the Stage-1 loop
relies on it (guaranteed by the JSON-object response format): absent, or a
JSON object whose `consumption_records` entry, if present, is a list. -/
def resultWF (o : Option Json) : Bool :=
  match o with
  | none => true
  | some (.obj fs) =>
    match fs.lookup "consumption_records" with
    | none => true
    | some (.arr _) => true
    | some _ => false
  | some _ => false

/-!
# Theorems

Helper lemmas first, then one theorem per claim (with witnesses and
counterexamples where required).
-/

theorem lookup_removeSession (st : Store) (sid : String) :
    (removeSession st sid).lookup sid = none := by
  induction st with
  | nil => rfl
  | cons hd tl ih =>
    obtain ⟨k, d⟩ := hd
    by_cases h : k = sid
    · subst h
      simpa [removeSession, List.filter] using ih
    · have hd : (decide ¬(k = sid)) = true := by simp [h]
      have hne : (sid == k) = false := by
        simp [beq_eq_false_iff_ne]
        exact fun hh => h hh.symm
      simpa [removeSession, List.filter, hd, List.lookup_cons, hne] using ih

theorem aggregate_results_invalid (st : Store) (sid : String)
    (gpt : String → Option Json) (ef : Option String)
    (h : is_session_valid st sid = false) :
    aggregate_results st sid gpt ef = (st, .invalidSession) := by
  unfold aggregate_results
  simp [h]

theorem aggregate_results_fst (st : Store) (sid : String)
    (gpt : String → Option Json) (ef : Option String) :
    (aggregate_results st sid gpt ef).1
      = if is_session_valid st sid then removeSession st sid else st := by
  by_cases h : is_session_valid st sid
  · rw [if_pos h]
    unfold aggregate_results
    rw [h]
    simp only [Bool.not_true, Bool.false_eq_true, if_false]
    split
    · rfl
    · split <;> rfl
  · rw [if_neg h]
    rw [aggregate_results_invalid st sid gpt ef (by simpa using h)]

theorem length_filterMap_eq_countP {α β : Type} (f : α → Option β) (l : List α) :
    (l.filterMap f).length = l.countP (fun a => (f a).isSome) := by
  induction l with
  | nil => rfl
  | cons a t ih =>
    cases h : f a <;> simp [List.filterMap_cons, h, List.countP_cons, ih]

theorem isSome_acceptedSummary (o : Option Json) :
    (acceptedSummary o).isSome = stage1Keeps o := by
  unfold acceptedSummary
  cases hk : stage1Keeps o
  · simp
  · cases o with
    | none => simp [stage1Keeps] at hk
    | some j => simp

/-- C5 (code_bug evidence): on a still image whose OCR response carries no
error, `extract_text_from_pages` does not return the single
`(1, text)` page the claim describes — it raises `NameError`, because the
image branch reads `image_response`, a variable bound only inside the PDF
branch's loop.  Shown here at a concrete `.jpg` input. -/
theorem C5_image_input_raises_nameError :
    extract_text_from_pages
      { annotate_pdf := fun _ => [],
        detect := fun _ => { error_message := "", text := "meter 1234 kWh" } }
      "scan.jpg" "imagebytes"
      = (.error (.nameError "image_response"), [.documentTextDetection]) := by
  decide

/-- C7: for any file whose (lower-cased) extension is not `.pdf`, `.jpg`,
`.jpeg` or `.png`, the Text Extraction Adapter fails with the
unsupported-file-type `ValueError` and issues no network call at all. -/
theorem C7_unsupported_extension_fails_before_network
    (backend : VisionBackend) (file_path content : String)
    (h1 : strLower (splitext file_path).2 ≠ ".pdf")
    (h2 : strLower (splitext file_path).2 ≠ ".jpg")
    (h3 : strLower (splitext file_path).2 ≠ ".jpeg")
    (h4 : strLower (splitext file_path).2 ≠ ".png") :
    extract_text_from_pages backend file_path content
      = (.error (.valueError ("Unsupported file type: " ++ (splitext file_path).2 ++ ".")),
         []) := by
  unfold extract_text_from_pages
  simp [h1, h2, h3, h4]

/-- Witness for C7 at the concrete input `bill.txt`, with a backend that
would have answered had it been called. -/
theorem C7_witness :
    (strLower (splitext "bill.txt").2 ≠ ".pdf"
      ∧ strLower (splitext "bill.txt").2 ≠ ".jpg"
      ∧ strLower (splitext "bill.txt").2 ≠ ".jpeg"
      ∧ strLower (splitext "bill.txt").2 ≠ ".png")
    ∧ extract_text_from_pages
        { annotate_pdf := fun _ => [[{ error_message := "", text := "pageone" }]],
          detect := fun _ => { error_message := "", text := "imagetext" } }
        "bill.txt" "textbytes"
        = (.error (.valueError ("Unsupported file type: " ++ (splitext "bill.txt").2 ++ ".")),
           []) :=
  ⟨by decide,
   C7_unsupported_extension_fails_before_network _ "bill.txt" "textbytes"
     (by decide) (by decide) (by decide) (by decide)⟩

/-- C9: `run_gpt_analysis` issues exactly one completion request — with
model `gpt-4o`, temperature `0` and the JSON-object response format — and
returns the parsed JSON of the trimmed response text on success and `None`
both when the backend call errors and when parsing fails; it never raises
and never issues a second (retry) request. -/
theorem C9_client_one_request_parse_or_none
    (complete : CompletionRequest → Except String String)
    (parseJson : String → Option Json) (prompt : String) :
    (run_gpt_analysis complete parseJson prompt).2
      = [{ model := "gpt-4o", prompt := prompt, temperature := 0, response_format_json := true }]
    ∧ (run_gpt_analysis complete parseJson prompt).1
      = match complete { model := "gpt-4o", prompt := prompt, temperature := 0,
                         response_format_json := true } with
        | .error _ => none
        | .ok content => parseJson content.trim := by
  unfold run_gpt_analysis
  refine ⟨?_, ?_⟩ <;>
  · cases h : complete ⟨"gpt-4o", prompt, 0, true⟩ with
    | error e => simp [h]
    | ok content => cases hp : parseJson content.trim <;> simp [h, hp]

/-- C8: a token containing the traversal sequence `".."` or the path
separator `'/'` is rejected by `is_session_valid` for every store state
whatsoever (in particular the rejection cannot depend on any storage
lookup), and both token-bearing operations fail with the invalid-session
error while leaving the store untouched. -/
theorem C8_traversal_token_rejected_before_storage
    (st : Store) (session_id : String)
    (h : hasSubstr session_id ".." = true ∨ session_id.toList.contains '/' = true) :
    is_session_valid st session_id = false
    ∧ (∀ filename outcome,
        upload_and_process_file st session_id filename outcome = (st, .invalidSession))
    ∧ (∀ gpt ef, aggregate_results st session_id gpt ef = (st, .invalidSession)) := by
  have hv : is_session_valid st session_id = false := by
    unfold is_session_valid
    have hc : (session_id.isEmpty || hasSubstr session_id ".."
        || session_id.toList.contains '/') = true := by
      rcases h with h | h
      · simp [h]
      · refine (Bool.or_eq_true _ _).mpr (Or.inr ?_)
        exact h
    rw [hc]
    simp
  refine ⟨hv, ?_, ?_⟩
  · intro filename outcome
    unfold upload_and_process_file
    simp [hv]
  · intro gpt ef
    unfold aggregate_results
    simp [hv]

/-- Witness for C8 at the concrete token `"../etc"`, against a store that
even contains a session under that very name: the token is still rejected
and the store is untouched. -/
theorem C8_witness :
    (hasSubstr "../etc" ".." = true ∨ ("../etc".toList.contains '/') = true)
    ∧ is_session_valid [("../etc", [("x.json", [Json.null])])] "../etc" = false
    ∧ aggregate_results [("../etc", [("x.json", [Json.null])])] "../etc"
        (fun _ => none) none
      = ([("../etc", [("x.json", [Json.null])])], .invalidSession) :=
  ⟨Or.inl (by decide),
   (C8_traversal_token_rejected_before_storage _ "../etc" (Or.inl (by decide))).1,
   (C8_traversal_token_rejected_before_storage _ "../etc" (Or.inl (by decide))).2.2
     (fun _ => none) none⟩

/-- C4 (counterexample): the claim says Stage-2 aggregation fails with
`AggregationFailed` **iff** the client invocation returns no result.  But
when the client returns the empty JSON object — a result — the code's
`if not final_report:` truthiness test still raises `AggregationFailed`. -/
theorem C4_counterexample_empty_object_report :
    run_stage2_aggregation (fun _ => some (Json.obj []))
        [Json.obj [("customer_name", Json.str "A")]] none
      = .error .aggregationFailed
    ∧ (fun _ : String => some (Json.obj []))
        ((get_stage2_prompt [Json.obj [("customer_name", Json.str "A")]] none).1)
      ≠ none := by
  exact ⟨by decide, by decide⟩

/-- C4 (amended): `run_stage2_aggregation` fails with `NothingToAggregate`
iff the accumulated collection is empty; otherwise it fails with
`AggregationFailed` iff the single client invocation returns no result
**or a falsy JSON value** (such as the empty object); in every other case
it returns exactly the client's report. -/
theorem C4_amended_failure_conditions (gpt : String → Option Json)
    (pages : List Json) (ef : Option String) :
    (run_stage2_aggregation gpt pages ef = .error .noData ↔ pages = [])
    ∧ (run_stage2_aggregation gpt pages ef = .error .aggregationFailed
        ↔ pages ≠ [] ∧ truthyOpt (gpt (get_stage2_prompt pages ef).1) = false)
    ∧ (∀ r, run_stage2_aggregation gpt pages ef = .ok r
        ↔ pages ≠ [] ∧ gpt (get_stage2_prompt pages ef).1 = some r ∧ r.truthy = true) := by
  unfold run_stage2_aggregation
  by_cases hp : pages = []
  · subst hp
    simp
  · have he : pages.isEmpty = false := by
      rw [← Bool.not_eq_true, List.isEmpty_iff]
      exact hp
    rw [he]
    cases hg : gpt (get_stage2_prompt pages ef).1 with
    | none => simp [truthyOpt, hp, hg]
    | some r =>
      cases htr : r.truthy with
      | false => simp [truthyOpt, hp, hg, htr]
      | true =>
        refine ⟨by simp [hg, htr, hp], by simp [truthyOpt, hg, htr, hp], ?_⟩
        intro r'
        simp only [hg, htr, if_true, hp, ne_eq, not_false_iff, true_and,
          Option.some.injEq]
        constructor
        · intro hh
          injection hh with hh
          subst hh
          exact ⟨rfl, htr⟩
        · rintro ⟨hh, -⟩
          subst hh
          rfl

/-- C6 (counterexample): `get_stage2_prompt` does **not** leave its
argument unchanged — the record loop stamps
`customer_name`/`customer_identifier` onto each consumption record of the
page objects it was handed, in place. -/
theorem C6_counterexample_argument_mutated :
    (get_stage2_prompt
        [Json.obj [("customer_name", Json.str "Acme"),
          ("consumption_records", Json.arr [Json.obj [("site_id", Json.str "S1")]])]]
        none).2
      ≠ [Json.obj [("customer_name", Json.str "Acme"),
          ("consumption_records", Json.arr [Json.obj [("site_id", Json.str "S1")]])]] := by
  decide

/-- C2: for a token naming a live session, `aggregate_results` destroys all
state of that session on every outcome path (success, empty collection,
failed aggregation), and a subsequent aggregate with the same token fails
with the invalid-session error, leaving the store unchanged. -/
theorem C2_aggregate_destroys_session
    (st : Store) (sid : String) (gpt gpt2 : String → Option Json) (ef ef2 : Option String)
    (h : is_session_valid st sid = true) :
    (aggregate_results st sid gpt ef).1.lookup sid = none
    ∧ is_session_valid (aggregate_results st sid gpt ef).1 sid = false
    ∧ aggregate_results (aggregate_results st sid gpt ef).1 sid gpt2 ef2
        = ((aggregate_results st sid gpt ef).1, .invalidSession) := by
  have hlook : (aggregate_results st sid gpt ef).1.lookup sid = none := by
    rw [aggregate_results_fst, if_pos h]
    exact lookup_removeSession st sid
  have hvalid : is_session_valid (aggregate_results st sid gpt ef).1 sid = false := by
    unfold is_session_valid
    rw [hlook]
    simp
  exact ⟨hlook, hvalid, aggregate_results_invalid _ sid gpt2 ef2 hvalid⟩

/-- Witness for C2 at a concrete one-file session. -/
theorem C2_witness :
    is_session_valid [("sess", [("a.json", [Json.null])])] "sess" = true
    ∧ ((aggregate_results [("sess", [("a.json", [Json.null])])] "sess"
          (fun _ => none) none).1.lookup "sess" = none
      ∧ is_session_valid
          (aggregate_results [("sess", [("a.json", [Json.null])])] "sess"
            (fun _ => none) none).1 "sess" = false
      ∧ aggregate_results
          (aggregate_results [("sess", [("a.json", [Json.null])])] "sess"
            (fun _ => none) none).1 "sess" (fun _ => some Json.null) none
        = ((aggregate_results [("sess", [("a.json", [Json.null])])] "sess"
            (fun _ => none) none).1, .invalidSession)) :=
  ⟨by decide,
   C2_aggregate_destroys_session [("sess", [("a.json", [Json.null])])] "sess"
     (fun _ => none) (fun _ => some Json.null) none none (by decide)⟩

/-- C3: when every client result has the schema shape the Stage-1 loop
relies on (a JSON object whose `consumption_records`, if present, is a
list — guaranteed by the JSON-object response format), the loop returns,
in page order, exactly the page summaries that are present with a
non-empty `consumption_records` list; its length is the number M of such
pages, and no kept summary has an empty record list. -/
theorem C3_stage1_keeps_exactly_nonempty_pages
    (gpt : String → Option Json) (doc_name : String) (pages : List Page)
    (hwf : ∀ p ∈ pages,
      resultWF (gpt (get_stage1_prompt p.text doc_name p.page_num)) = true) :
    stage1Loop gpt doc_name pages
      = .ok (pages.filterMap (fun p =>
          acceptedSummary (gpt (get_stage1_prompt p.text doc_name p.page_num))))
    ∧ (pages.filterMap (fun p =>
          acceptedSummary (gpt (get_stage1_prompt p.text doc_name p.page_num)))).length
      = pages.countP (fun p =>
          stage1Keeps (gpt (get_stage1_prompt p.text doc_name p.page_num)))
    ∧ ∀ j ∈ pages.filterMap (fun p =>
          acceptedSummary (gpt (get_stage1_prompt p.text doc_name p.page_num))),
        ∃ fs xs, j = Json.obj fs
          ∧ fs.lookup "consumption_records" = some (Json.arr xs) ∧ xs ≠ [] := by
  refine ⟨?_, ?_, ?_⟩
  · induction pages with
    | nil => rfl
    | cons p rest ih =>
      have hwf_p := hwf p (by simp)
      have hwf_rest : ∀ q ∈ rest,
          resultWF (gpt (get_stage1_prompt q.text doc_name q.page_num)) = true :=
        fun q hq => hwf q (List.mem_cons_of_mem _ hq)
      have ihr := ih hwf_rest
      cases hg : gpt (get_stage1_prompt p.text doc_name p.page_num) with
      | none =>
        simp only [stage1Loop, hg, List.filterMap_cons, acceptedSummary, stage1Keeps]
        simpa [acceptedSummary] using ihr
      | some j =>
        rw [hg] at hwf_p
        cases j with
        | obj fs =>
          by_cases ht : (Json.obj fs).truthy
          · by_cases hr : truthyOpt (fs.lookup "consumption_records") = true
            · have hk : stage1Keeps (some (Json.obj fs)) = true := by
                simp [stage1Keeps, ht, hr]
              simp only [stage1Loop, hg, ht, if_true, hr, List.filterMap_cons,
                acceptedSummary, hk, ihr]
              rfl
            · have hk : stage1Keeps (some (Json.obj fs)) = false := by
                simp [stage1Keeps, hr]
              have hr' : truthyOpt (fs.lookup "consumption_records") = false := by
                simpa using hr
              simp only [stage1Loop, hg, ht, if_true, hr', Bool.false_eq_true,
                if_false, List.filterMap_cons, acceptedSummary, hk]
              simpa [acceptedSummary] using ihr
          · have ht' : (Json.obj fs).truthy = false := by simpa using ht
            have hk : stage1Keeps (some (Json.obj fs)) = false := by
              simp [stage1Keeps, ht']
            simp only [stage1Loop, hg, ht', Bool.false_eq_true, if_false,
              List.filterMap_cons, acceptedSummary, hk]
            simpa [acceptedSummary] using ihr
        | null => simp [resultWF] at hwf_p
        | bool b => simp [resultWF] at hwf_p
        | num n => simp [resultWF] at hwf_p
        | str s => simp [resultWF] at hwf_p
        | arr xs => simp [resultWF] at hwf_p
  · rw [length_filterMap_eq_countP]
    apply List.countP_congr
    intro p _
    rw [isSome_acceptedSummary]
  · intro j hj
    rw [List.mem_filterMap] at hj
    obtain ⟨p, hp, hacc⟩ := hj
    have hwf_p := hwf p hp
    unfold acceptedSummary at hacc
    by_cases hk : stage1Keeps (gpt (get_stage1_prompt p.text doc_name p.page_num)) = true
    · rw [if_pos hk] at hacc
      cases hg : gpt (get_stage1_prompt p.text doc_name p.page_num) with
      | none => rw [hg] at hacc; exact absurd hacc (by simp)
      | some j' =>
        rw [hg] at hacc hk hwf_p
        cases j' with
        | obj fs =>
          refine ⟨fs, ?_⟩
          have hj' : j = Json.obj fs := by
            injection hacc with hh
            exact hh.symm
          cases hl : fs.lookup "consumption_records" with
          | none => rw [stage1Keeps] at hk; simp [hl, truthyOpt] at hk
          | some v =>
            cases v with
            | arr xs =>
              refine ⟨xs, hj', rfl, ?_⟩
              rw [stage1Keeps] at hk
              simp [hl, truthyOpt, Json.truthy] at hk
              intro he
              rw [he] at hk
              simp at hk
            | null => simp [resultWF, hl] at hwf_p
            | bool b => simp [resultWF, hl] at hwf_p
            | num n => simp [resultWF, hl] at hwf_p
            | str s => simp [resultWF, hl] at hwf_p
            | obj fs2 => simp [resultWF, hl] at hwf_p
        | null => simp [stage1Keeps] at hk
        | bool b => simp [stage1Keeps] at hk
        | num n => simp [stage1Keeps] at hk
        | str s => simp [stage1Keeps] at hk
        | arr xs => simp [stage1Keeps] at hk
    · rw [if_neg hk] at hacc
      exact absurd hacc (by simp)

set_option maxRecDepth 8192 in
/-- Witness for C3: a two-page document whose first page yields a summary
with one consumption record and whose second page yields nothing. -/
theorem C3_witness :
    (∀ p ∈ [(⟨1, "texta"⟩ : Page), ⟨2, "textb"⟩],
      resultWF ((fun s => if s = get_stage1_prompt "texta" "doc" 1
          then some (Json.obj [("consumption_records",
            Json.arr [Json.obj [("site_id", Json.str "S1")]])])
          else none) (get_stage1_prompt p.text "doc" p.page_num)) = true)
    ∧ stage1Loop
        (fun s => if s = get_stage1_prompt "texta" "doc" 1
          then some (Json.obj [("consumption_records",
            Json.arr [Json.obj [("site_id", Json.str "S1")]])])
          else none)
        "doc" [⟨1, "texta"⟩, ⟨2, "textb"⟩]
      = .ok [Json.obj [("consumption_records",
          Json.arr [Json.obj [("site_id", Json.str "S1")]])]] :=
  ⟨by decide,
   (C3_stage1_keeps_exactly_nonempty_pages
      (fun s => if s = get_stage1_prompt "texta" "doc" 1
        then some (Json.obj [("consumption_records",
          Json.arr [Json.obj [("site_id", Json.str "S1")]])])
        else none)
      "doc" [⟨1, "texta"⟩, ⟨2, "textb"⟩] (by decide)).1⟩

theorem lookup_singleton_ne {β : Type} (n m : String) (b : β) (h : m ≠ n) :
    ([(n, b)] : List (String × β)).lookup m = none := by
  have hbe : (m == n) = false := beq_eq_false_iff_ne.mpr h
  simp [List.lookup_cons, hbe]

theorem lookup_map_replace_self (t : List (String × Json)) (k : String) (v : Json)
    (h : (t.lookup k).isSome = true) :
    (t.map (fun e => if e.1 = k then (k, v) else e)).lookup k = some v := by
  induction t with
  | nil => simp at h
  | cons e t ih =>
    obtain ⟨ek, ev⟩ := e
    by_cases he : ek = k
    · subst he
      simp [List.lookup_cons]
    · have hbe : (k == ek) = false :=
        beq_eq_false_iff_ne.mpr (fun hh => he hh.symm)
      simp only [List.lookup_cons, hbe] at h
      simp [he, List.lookup_cons, hbe, ih h]

theorem lookup_map_replace_ne (t : List (String × Json)) (k k' : String) (v : Json)
    (h : k' ≠ k) :
    (t.map (fun e => if e.1 = k then (k, v) else e)).lookup k' = t.lookup k' := by
  induction t with
  | nil => rfl
  | cons e t ih =>
    obtain ⟨ek, ev⟩ := e
    by_cases he : ek = k
    · subst he
      simp [List.lookup_cons, beq_eq_false_iff_ne.mpr h, ih]
    · cases hbe : (k' == ek) <;> simp [he, List.lookup_cons, hbe, ih]

theorem lookup_dictSet_self (fs : List (String × Json)) (k : String) (v : Json) :
    (dictSet fs k v).lookup k = some v := by
  unfold dictSet
  by_cases h : (fs.lookup k).isSome
  · rw [if_pos h]
    exact lookup_map_replace_self fs k v h
  · rw [if_neg h, List.lookup_append,
      Option.not_isSome_iff_eq_none.mp h]
    simp [List.lookup_cons]

theorem lookup_dictSet_ne (fs : List (String × Json)) (k k' : String) (v : Json)
    (h : k' ≠ k) :
    (dictSet fs k v).lookup k' = fs.lookup k' := by
  unfold dictSet
  by_cases hp : (fs.lookup k).isSome
  · rw [if_pos hp]
    exact lookup_map_replace_ne fs k k' v h
  · rw [if_neg hp, List.lookup_append, lookup_singleton_ne _ _ _ h]
    simp

/-- C6 (amended): `get_stage1_prompt` is pure; `get_stage2_prompt` returns
a string but mutates its argument — each page comes back with every
consumption record stamped in place with the page's
customer_name/customer_identifier.  The mutation touches nothing else:
record keys other than the two stamped ones keep their values, page keys
other than `consumption_records` keep theirs, and the record list keeps
its length and order.  No store write happens during aggregation, so the
stamped fields are never persisted onto the stored PageRecords (the
session directory is only ever read and then removed whole). -/
theorem C6_amended_stamping_only (pages : List Json) (ef : Option String) :
    (get_stage2_prompt pages ef).2 = pages.map stampPage
    ∧ (∀ cn ci r k, k ≠ "customer_name" → k ≠ "customer_identifier" →
        pyGet (stampRecord cn ci r) k = pyGet r k)
    ∧ (∀ p k, k ≠ "consumption_records" → pyGet (stampPage p) k = pyGet p k)
    ∧ (∀ p, getRecords (stampPage p)
        = (getRecords p).map
            (stampRecord (pyGet p "customer_name") (pyGet p "customer_identifier")))
    ∧ (∀ st sid gpt ef2, (aggregate_results st sid gpt ef2).1
        = if is_session_valid st sid then removeSession st sid else st) := by
  refine ⟨rfl, ?_, ?_, ?_, ?_⟩
  · intro cn ci r k h1 h2
    cases r with
    | obj fs =>
      simp only [stampRecord, pyGet]
      rw [lookup_dictSet_ne _ _ _ _ h2, lookup_dictSet_ne _ _ _ _ h1]
    | null => rfl
    | bool b => rfl
    | num n => rfl
    | str s => rfl
    | arr xs => rfl
  · intro p k hk
    cases p with
    | obj fs =>
      cases hl : fs.lookup "consumption_records" with
      | none => simp [stampPage, hl]
      | some v =>
        cases v with
        | arr xs =>
          simp only [stampPage, hl, pyGet]
          rw [lookup_dictSet_ne _ _ _ _ hk]
        | null => simp [stampPage, hl]
        | bool b => simp [stampPage, hl]
        | num n => simp [stampPage, hl]
        | str s => simp [stampPage, hl]
        | obj fs2 => simp [stampPage, hl]
    | null => rfl
    | bool b => rfl
    | num n => rfl
    | str s => rfl
    | arr xs => rfl
  · intro p
    cases p with
    | obj fs =>
      cases hl : fs.lookup "consumption_records" with
      | none => simp [stampPage, getRecords, hl]
      | some v =>
        cases v with
        | arr xs =>
          simp only [stampPage, hl, getRecords]
          rw [lookup_dictSet_self]
          simp [pyGet, hl]
        | null => simp [stampPage, getRecords, hl]
        | bool b => simp [stampPage, getRecords, hl]
        | num n => simp [stampPage, getRecords, hl]
        | str s => simp [stampPage, getRecords, hl]
        | obj fs2 => simp [stampPage, getRecords, hl]
    | null => rfl
    | bool b => rfl
    | num n => rfl
    | str s => rfl
    | arr xs => rfl
  · intro st sid gpt ef2
    exact aggregate_results_fst st sid gpt ef2

/-- Witness for C6 (amended) at concrete inputs. -/
theorem C6_witness :
    (get_stage2_prompt [] none).2 = ([] : List Json).map stampPage
    ∧ pyGet (stampRecord (Json.str "Acme") Json.null
        (Json.obj [("site_id", Json.str "S1")])) "site_id"
      = pyGet (Json.obj [("site_id", Json.str "S1")]) "site_id" :=
  ⟨(C6_amended_stamping_only [] none).1,
   (C6_amended_stamping_only [] none).2.1 (Json.str "Acme") Json.null
     (Json.obj [("site_id", Json.str "S1")]) "site_id" (by decide) (by decide)⟩

/-- C10 (counterexample): the final report is whatever the client returns
and is not validated, so a report can contain a consumption record that
appears nowhere in the stored pages — the aggregation code happily
returns it.  Here the stored session holds one record with value 100,
while the returned report contains a fabricated record with value 999
that is no subterm of the stored data and not in the flattened list
either. -/
theorem C10_counterexample_fabricated_record :
    run_stage2_aggregation
        (fun _ => some (Json.obj [("customers",
            Json.arr [Json.obj [("consumption_value", Json.num 999)]])]))
        [Json.obj [("customer_name", Json.str "Acme"),
          ("consumption_records", Json.arr [Json.obj [("consumption_value", Json.num 100)]])]]
        none
      = .ok (Json.obj [("customers",
          Json.arr [Json.obj [("consumption_value", Json.num 999)]])])
    ∧ Json.obj [("consumption_value", Json.num 999)]
        ∈ (Json.obj [("customers",
            Json.arr [Json.obj [("consumption_value", Json.num 999)]])]).subterms
    ∧ Json.obj [("consumption_value", Json.num 999)]
        ∉ (Json.arr [Json.obj [("customer_name", Json.str "Acme"),
            ("consumption_records",
              Json.arr [Json.obj [("consumption_value", Json.num 100)]])]]).subterms
    ∧ Json.obj [("consumption_value", Json.num 999)]
        ∉ flattenRecords [Json.obj [("customer_name", Json.str "Acme"),
            ("consumption_records",
              Json.arr [Json.obj [("consumption_value", Json.num 100)]])]] := by
  exact ⟨by decide, by decide, by decide, by decide⟩

/-- C10 (amended): the deterministic flattening step of the aggregator
fabricates nothing — a record is in the flattened list handed to the
client iff it is the stamped copy of a record of one of the stored pages,
and the flattened list's length is exactly the total record count of the
stored pages.  Traceability of the final report itself is up to the
(unvalidated) client — see the counterexample. -/
theorem C10_amended_flatten_traceable (pages : List Json) :
    (∀ r, r ∈ flattenRecords pages ↔
      ∃ p, p ∈ pages ∧ ∃ r0, r0 ∈ getRecords p ∧
        r = stampRecord (pyGet p "customer_name") (pyGet p "customer_identifier") r0)
    ∧ (flattenRecords pages).length
      = (pages.map (fun p => (getRecords p).length)).sum := by
  constructor
  · intro r
    unfold flattenRecords
    rw [List.mem_flatten]
    constructor
    · rintro ⟨l, hl, hr⟩
      rw [List.mem_map] at hl
      obtain ⟨p, hp, rfl⟩ := hl
      rw [List.mem_map] at hr
      obtain ⟨r0, hr0, rfl⟩ := hr
      exact ⟨p, hp, r0, hr0, rfl⟩
    · rintro ⟨p, hp, r0, hr0, rfl⟩
      exact ⟨_, List.mem_map_of_mem _ hp, List.mem_map_of_mem _ hr0⟩
  · unfold flattenRecords
    rw [List.length_flatten, List.map_map]
    congr 1
    simp [Function.comp]

/-- Witness for C10 (amended): a stamped record of a concrete stored page
is in the flattened list. -/
theorem C10_witness :
    Json.obj [("site_id", Json.str "S1"), ("customer_name", Json.str "Acme"),
        ("customer_identifier", Json.null)]
      ∈ flattenRecords [Json.obj [("customer_name", Json.str "Acme"),
          ("consumption_records", Json.arr [Json.obj [("site_id", Json.str "S1")]])]] :=
  ((C10_amended_flatten_traceable _).1 _).mpr
    ⟨Json.obj [("customer_name", Json.str "Acme"),
        ("consumption_records", Json.arr [Json.obj [("site_id", Json.str "S1")]])],
     by decide, Json.obj [("site_id", Json.str "S1")], by decide, by decide⟩

/-- Witness for C4 (amended): the empty collection fails with
`NothingToAggregate`. -/
theorem C4_witness :
    run_stage2_aggregation (fun _ => none) ([] : List Json) none = .error .noData :=
  ((C4_amended_failure_conditions (fun _ => none) [] none).1).mpr rfl

end BillOCR
